import Mathlib

/-!
Shallow embedding of the weather-recommendation agent (`UI_main.py`).

The pipeline is a four-node LangGraph workflow threaded over an `AgentState`
record: location extraction (LLM call), weather fetch (HTTP call to
WeatherAPI.com), recommendation synthesis (LLM call), and a terminal error
handler.  The two external services are modelled as function parameters
(`LLMClient`, `WeatherClient`); every node additionally returns the list of
external calls it issued, so that claims about "the client is never invoked"
are statable.  Python dictionaries holding provider JSON are modelled by the
`Json` type below; `dict.get` with and without a default is modelled in an
`Except` monad so that Python's `AttributeError` on non-dict receivers is a
visible failure that the source's `except Exception` handler catches.
-/

namespace WeatherAgent

/-- JSON-like values as produced by `response.json()` and threaded through the
Python dictionaries of the source.  Numbers are modelled as integers (no claim
performs arithmetic on them). -/
inductive Json : Type where
  | null : Json
  | bool (b : Bool) : Json
  | num (n : Int) : Json
  | str (s : String) : Json
  | arr (elems : List Json) : Json
  | obj (fields : List (String × Json)) : Json

/-- Total observation: the value stored under a key, `Json.null` when the key
is absent or the receiver is not an object. -/
def Json.jGet (j : Json) (k : String) : Json :=
  match j with
  | .obj fs => (fs.lookup k).getD .null
  | _ => .null

/-- Total observation: the value stored under a key, with an explicit default
for an absent key (also returned when the receiver is not an object). -/
def Json.jGetD (j : Json) (k : String) (d : Json) : Json :=
  match j with
  | .obj fs => (fs.lookup k).getD d
  | _ => d

/-- Python `k in d` membership test on an object. -/
def Json.hasKey (j : Json) (k : String) : Bool :=
  match j with
  | .obj fs => (fs.lookup k).isSome
  | _ => false

def Json.isObj : Json → Bool
  | .obj _ => true
  | _ => false

def Json.isArr : Json → Bool
  | .arr _ => true
  | _ => false

/-- Python truthiness of a value (`if x:`). -/
def pyTruthy : Json → Bool
  | .null => false
  | .bool b => b
  | .num n => n != 0
  | .str s => s != ""
  | .arr xs => !xs.isEmpty
  | .obj fs => !fs.isEmpty

/-- Python `str()` as used by f-string interpolation; `None` renders as the
text "None".  The container cases approximate Python's `repr` (no claim
inspects them). -/
def pyFormat : Json → String
  | .null => "None"
  | .bool b => if b then "True" else "False"
  | .num n => toString n
  | .str s => s
  | .arr _ => "[...]"
  | .obj _ => "\x7b...\x7d"

/-- Python `d.get(k, default)`: raises (`AttributeError`) when the receiver is
not a dict, otherwise returns the stored value or the default. -/
def pyGetD (j : Json) (k : String) (d : Json) : Except String Json :=
  match j with
  | .obj fs => .ok ((fs.lookup k).getD d)
  | _ => .error "AttributeError: object has no attribute get"

/-- Python `d.get(k)` (default `None`). -/
def pyGet (j : Json) (k : String) : Except String Json :=
  pyGetD j k .null

/-- Python `for x in j`: lists iterate their elements, dicts iterate their
keys, strings iterate their characters, other values raise `TypeError`. -/
def pyIter : Json → Except String (List Json)
  | .arr xs => .ok xs
  | .obj fs => .ok (fs.map (fun kv => Json.str kv.1))
  | .str s => .ok (s.toList.map (fun c => Json.str (String.singleton c)))
  | _ => .error "TypeError: object is not iterable"

mutual

/-- Model of `json.dumps` used to serialize `weather_data` into the
recommendation prompt (indentation fidelity is not modelled; no claim
inspects the serialized text). -/
def jsonDumps : Json → String
  | .null => "null"
  | .bool b => if b then "true" else "false"
  | .num n => toString n
  | .str s => "\"" ++ s ++ "\""
  | .arr xs => "[" ++ dumpsElems xs ++ "]"
  | .obj fs => "\x7b" ++ dumpsFields fs ++ "\x7d"

def dumpsElems : List Json → String
  | [] => ""
  | [x] => jsonDumps x
  | x :: xs => jsonDumps x ++ ", " ++ dumpsElems xs

def dumpsFields : List (String × Json) → String
  | [] => ""
  | [kv] => "\"" ++ kv.1 ++ "\": " ++ jsonDumps kv.2
  | kv :: kvs => "\"" ++ kv.1 ++ "\": " ++ jsonDumps kv.2 ++ ", " ++ dumpsFields kvs

end

/-- Python `str.strip()`: drops whitespace from both ends (executable
character-list model). -/
def pyStrip (s : String) : String :=
  String.mk (((s.data.dropWhile Char.isWhitespace).reverse.dropWhile
    Char.isWhitespace).reverse)

/-- Outcome of one LLM completion call (`llm.invoke`): generated text, or an
exception with its rendered message. -/
inductive LLMResp : Type where
  | ok (text : String) : LLMResp
  | exn (msg : String) : LLMResp

/-- The LLM Client boundary: system instruction and user message to response. -/
def LLMClient : Type := String → String → LLMResp

/-- Outcome of the HTTP request issued by `fetch_weather_data`: a parsed 2xx
JSON body, a `requests.RequestException` (network failure or `raise_for_status`
on a non-2xx response), or any other exception. -/
inductive WeatherResp : Type where
  | ok (data : Json) : WeatherResp
  | httpError (msg : String) : WeatherResp
  | exn (msg : String) : WeatherResp

/-- The Weather Client boundary, as a function of the queried location. -/
def WeatherClient : Type := String → WeatherResp

/-- One external call issued by the pipeline, recorded for observability of
which collaborators were invoked. -/
inductive Call : Type where
  | llm (system user : String) : Call
  | weather (location : String) : Call

/-- Body of the `for day in forecast_days` loop of `fetch_weather_data`:
builds one normalized forecast-day record. -/
def build_forecast_day (day : Json) : Except String Json := do
  let day_data ← pyGetD day "day" (.obj [])
  let date ← pyGet day "date"
  let max_temp_c ← pyGet day_data "maxtemp_c"
  let min_temp_c ← pyGet day_data "mintemp_c"
  let max_temp_f ← pyGet day_data "maxtemp_f"
  let min_temp_f ← pyGet day_data "mintemp_f"
  let condObj ← pyGetD day_data "condition" (.obj [])
  let condition ← pyGet condObj "text"
  let rain_chance ← pyGet day_data "daily_chance_of_rain"
  let snow_chance ← pyGet day_data "daily_chance_of_snow"
  let max_wind_kph ← pyGet day_data "maxwind_kph"
  let avg_humidity ← pyGet day_data "avghumidity"
  let uv ← pyGet day_data "uv"
  pure (Json.obj
    [("date", date),
     ("max_temp_c", max_temp_c),
     ("min_temp_c", min_temp_c),
     ("max_temp_f", max_temp_f),
     ("min_temp_f", min_temp_f),
     ("condition", condition),
     ("rain_chance", rain_chance),
     ("snow_chance", snow_chance),
     ("max_wind_kph", max_wind_kph),
     ("avg_humidity", avg_humidity),
     ("uv", uv)])

/-- The `for` loop over the forecast days, building the `forecast` list in
order. -/
def build_forecast : List Json → Except String (List Json)
  | [] => .ok []
  | d :: rest => do
      let o ← build_forecast_day d
      let os ← build_forecast rest
      pure (o :: os)

/-- Body of the alert list comprehension of `fetch_weather_data`. -/
def build_alert (alert : Json) : Except String Json := do
  let headline ← pyGet alert "headline"
  let severity ← pyGet alert "severity"
  let event ← pyGet alert "event"
  pure (Json.obj [("headline", headline), ("severity", severity), ("event", event)])

/-- The alert list comprehension, in order. -/
def build_alerts : List Json → Except String (List Json)
  | [] => .ok []
  | a :: rest => do
      let o ← build_alert a
      let os ← build_alerts rest
      pure (o :: os)

/-- The `try`-block of `fetch_weather_data` after a successful HTTP response:
extracts the relevant fields of the provider's JSON `data` into the
`weather_summary` dictionary.  A raised `AttributeError`/`TypeError` (non-dict
or non-iterable receiver) is an `Except.error` here, caught by the enclosing
`except Exception` handler. -/
def normalizeWeather (data : Json) : Except String Json := do
  let current ← pyGetD data "current" (.obj [])
  let fnode ← pyGetD data "forecast" (.obj [])
  let forecast_days ← pyGetD fnode "forecastday" (.arr [])
  let location_info ← pyGetD data "location" (.obj [])
  let name ← pyGet location_info "name"
  let country ← pyGet location_info "country"
  let localtime ← pyGet location_info "localtime"
  let temp_c ← pyGet current "temp_c"
  let temp_f ← pyGet current "temp_f"
  let condObj ← pyGetD current "condition" (.obj [])
  let condition ← pyGet condObj "text"
  let wind_kph ← pyGet current "wind_kph"
  let wind_mph ← pyGet current "wind_mph"
  let humidity ← pyGet current "humidity"
  let feelslike_c ← pyGet current "feelslike_c"
  let feelslike_f ← pyGet current "feelslike_f"
  let uv ← pyGet current "uv"
  let visibility_km ← pyGet current "vis_km"
  let days ← pyIter forecast_days
  let forecast ← build_forecast days
  let anode ← pyGetD data "alerts" (.obj [])
  let alerts ← pyGetD anode "alert" (.arr [])
  let base : List (String × Json) :=
    [("location", .str (pyFormat name ++ ", " ++ pyFormat country)),
     ("local_time", localtime),
     ("current", .obj
       [("temp_c", temp_c),
        ("temp_f", temp_f),
        ("condition", condition),
        ("wind_kph", wind_kph),
        ("wind_mph", wind_mph),
        ("humidity", humidity),
        ("feelslike_c", feelslike_c),
        ("feelslike_f", feelslike_f),
        ("uv", uv),
        ("visibility_km", visibility_km)]),
     ("forecast", .arr forecast)]
  if pyTruthy alerts then do
    let alertItems ← pyIter alerts
    let alertRecords ← build_alerts alertItems
    pure (Json.obj (base ++ [("alerts", .arr alertRecords)]))
  else
    pure (Json.obj base)

/-- `fetch_weather_data(location)`: returns the summary dictionary or an
`error`-keyed dictionary, together with the list of HTTP requests issued
(empty when the key check short-circuits, one request otherwise). -/
def fetch_weather_data (wc : WeatherClient) (weatherKey : String)
    (location : String) : Json × List Call :=
  if weatherKey = "" then
    (.obj [("error", .str "WEATHER_API_KEY not set")], [])
  else
    match wc location with
    | .httpError e => (.obj [("error", .str ("Weather API error: " ++ e))], [.weather location])
    | .exn e => (.obj [("error", .str ("Unexpected error: " ++ e))], [.weather location])
    | .ok data =>
        match normalizeWeather data with
        | .ok summary => (summary, [.weather location])
        | .error e => (.obj [("error", .str ("Unexpected error: " ++ e))], [.weather location])

/-- The `AgentState` TypedDict threaded through the workflow.  Messages are
modelled by their content strings (the `add_messages` reducer appends). -/
structure AgentState : Type where
  messages : List String
  user_query : String
  location : String
  weather_data : Json
  recommendations : String
  error : String

/-- System prompt of `extract_location_node` (verbatim from the source,
including the trailing blank of its second line). -/
def locationSystemPrompt : String :=
  "You are a location extraction expert. Extract the primary geographic location from the user\x27s query.\n        \nRules:\n- Return ONLY the location name (city, region, or country)\n- If multiple locations are mentioned, return the primary one\n- If no location is mentioned, return \"unknown\"\n- Do not include any explanation, just the location name\n\nExamples:\nUser: \"What should I wear in Paris tomorrow?\"\nResponse: Paris\n\nUser: \"Is it safe to travel to Tokyo next week?\"\nResponse: Tokyo\n\nUser: \"What\x27s the weather like?\"\nResponse: unknown"

/-- System prompt of `analyze_and_recommend_node` (verbatim from the source). -/
def recSystemPrompt : String :=
  "You are a weather-based recommendation expert. Analyze the provided weather data and user query to generate practical, actionable recommendations.\n\nYour recommendations should cover:\n1. **Clothing Suggestions**: Based on temperature, wind, rain, and UV index\n2. **Travel Safety**: Assess any weather-related risks\n3. **Activity Planning**: Suggest best times and precautions\n4. **Health Considerations**: UV protection, hydration, etc.\n\nGuidelines:\n- Be specific and practical\n- Consider current conditions AND forecast\n- Mention any weather alerts if present\n- Use natural, conversational language\n- Focus on what matters most to the user\x27s intent\n- Include temperature in both Celsius and Fahrenheit when relevant\n\nFormat your response in clear sections with appropriate headers."

/-- User message submitted by `analyze_and_recommend_node`: the original query
plus the serialized weather data. -/
def analyzeUserMessage (user_query : String) (weather_data : Json) : String :=
  "User Query: " ++ user_query ++ "\n\nWeather Data:\n" ++ jsonDumps weather_data ++
    "\n\nProvide comprehensive recommendations based on this information."

/-- Message of the `ValueError` raised by `get_llm` when `GROQ_API_KEY` is
empty; the raising node's `except` handler renders it with `str(e)`. -/
def groqKeyMissingMsg : String :=
  "GROQ_API_KEY not set. Please set it as an environment variable."

/-- Validation error written by `fetch_weather_node` when no location was
extracted. -/
def noLocationMsg : String :=
  "No location specified. Please include a city or location in your query."

/-- `extract_location_node`: asks the LLM for the location and stores the
trimmed response; any exception (including the `get_llm` key check) becomes
the `error` field. -/
def extract_location_node (llm : LLMClient) (groqKey : String)
    (s : AgentState) : AgentState × List Call :=
  if groqKey = "" then
    ({ s with error := "Location extraction error: " ++ groqKeyMissingMsg }, [])
  else
    match llm locationSystemPrompt s.user_query with
    | .ok content =>
        let location := pyStrip content
        ({ s with
            location := location,
            messages := s.messages ++ ["Extracted location: " ++ location] },
         [.llm locationSystemPrompt s.user_query])
    | .exn e =>
        ({ s with error := "Location extraction error: " ++ e },
         [.llm locationSystemPrompt s.user_query])

/-- `fetch_weather_node`: validation short-circuit on a missing location,
otherwise delegates to `fetch_weather_data` and copies a reported `error`
value or stores the summary.  In the embedded record the `error` value is
always a string (provable for every output of `fetch_weather_data`); the
non-string fallback renders via `pyFormat`. -/
def fetch_weather_node (wc : WeatherClient) (weatherKey : String)
    (s : AgentState) : AgentState × List Call :=
  if s.location = "unknown" ∨ s.location = "" then
    ({ s with error := noLocationMsg }, [])
  else if (fetch_weather_data wc weatherKey s.location).1.hasKey "error" then
    ({ s with error :=
        match (fetch_weather_data wc weatherKey s.location).1.jGet "error" with
        | .str e => e
        | other => pyFormat other },
     (fetch_weather_data wc weatherKey s.location).2)
  else
    ({ s with
        weather_data := (fetch_weather_data wc weatherKey s.location).1,
        messages := s.messages ++
          ["Fetched weather data for " ++
            pyFormat ((fetch_weather_data wc weatherKey s.location).1.jGet "location")] },
     (fetch_weather_data wc weatherKey s.location).2)

/-- `analyze_and_recommend_node`: `get_llm` key check first (as in the
source), then the empty-`weather_data` guard, then the completion call whose
text is stored verbatim in `recommendations`. -/
def analyze_and_recommend_node (llm : LLMClient) (groqKey : String)
    (s : AgentState) : AgentState × List Call :=
  if groqKey = "" then
    ({ s with error := "Recommendation generation error: " ++ groqKeyMissingMsg }, [])
  else if !pyTruthy s.weather_data then
    ({ s with error := "No weather data available" }, [])
  else
    match llm recSystemPrompt (analyzeUserMessage s.user_query s.weather_data) with
    | .ok content =>
        ({ s with
            recommendations := content,
            messages := s.messages ++ ["Generated recommendations"] },
         [.llm recSystemPrompt (analyzeUserMessage s.user_query s.weather_data)])
    | .exn e =>
        ({ s with error := "Recommendation generation error: " ++ e },
         [.llm recSystemPrompt (analyzeUserMessage s.user_query s.weather_data)])

/-- The formatted message written by `error_handler_node`. -/
def errorStageText (msg : String) : String :=
  "⚠️ **Error**: " ++ msg ++
    "\n\nPlease try again with a different query or check your API keys."

/-- `error_handler_node`.  The source reads `state.get("error", "Unknown
error occurred")`; the `error` key is always present in the embedded record,
so the absent-key default cannot fire and the field value is used directly. -/
def error_handler_node (s : AgentState) : AgentState :=
  { s with recommendations := errorStageText s.error }

/-- `should_continue`: route taken after location extraction. -/
def should_continue (s : AgentState) : String :=
  if s.error ≠ "" then "error" else "fetch_weather"

/-- `after_weather_fetch`: route taken after the weather fetch. -/
def after_weather_fetch (s : AgentState) : String :=
  if s.error ≠ "" then "error" else "analyze"

/-- Execution of the compiled graph of `create_agent_graph` on an initial
state: `extract_location` is the entry point, the two conditional edges
consult the routing predicates, and both `analyze` and `error` lead to END
(there is no conditional edge after `analyze`).  Also accumulates the
external calls issued. -/
def run_graph (llm : LLMClient) (wc : WeatherClient)
    (groqKey weatherKey : String) (s0 : AgentState) : AgentState × List Call :=
  let r1 := extract_location_node llm groqKey s0
  if should_continue r1.1 = "error" then
    (error_handler_node r1.1, r1.2)
  else
    let r2 := fetch_weather_node wc weatherKey r1.1
    if after_weather_fetch r2.1 = "error" then
      (error_handler_node r2.1, r1.2 ++ r2.2)
    else
      let r3 := analyze_and_recommend_node llm groqKey r2.1
      (r3.1, r1.2 ++ r2.2 ++ r3.2)

/-- The module-global credential variables `GROQ_API_KEY` and
`WEATHER_API_KEY`. -/
structure Globals : Type where
  GROQ_API_KEY : String
  WEATHER_API_KEY : String

/-- The `initial_state` dictionary built by `process_query`. -/
def initial_state (user_query : String) : AgentState :=
  { messages := []
    user_query := user_query
    location := ""
    weather_data := .obj []
    recommendations := ""
    error := "" }

/-- The two global assignments at the head of `process_query`:
`GROQ_API_KEY = groq_key or GROQ_API_KEY` and the analogous weather-key line
(`key or GLOBAL` keeps the old value when the provided key is empty). -/
def updateGlobals (g : Globals) (groq_key weather_key : String) : Globals :=
  { GROQ_API_KEY := if groq_key ≠ "" then groq_key else g.GROQ_API_KEY
    WEATHER_API_KEY := if weather_key ≠ "" then weather_key else g.WEATHER_API_KEY }

/-- `process_query(user_query, groq_key, weather_key)`: updates the global
credentials, validates them and the query, then runs the graph and returns
the `recommendations` field (always present in the final state) alongside
the updated globals. -/
def process_query (llm : LLMClient) (wc : WeatherClient) (g : Globals)
    (user_query groq_key weather_key : String) : Globals × String :=
  let g1 : Globals := updateGlobals g groq_key weather_key
  if g1.GROQ_API_KEY = "" then
    (g1, "❌ Please provide your Groq API key")
  else if g1.WEATHER_API_KEY = "" then
    (g1, "❌ Please provide your WeatherAPI key")
  else if pyStrip user_query = "" then
    (g1, "❌ Please enter a query")
  else
    let result := run_graph llm wc g1.GROQ_API_KEY g1.WEATHER_API_KEY
      (initial_state user_query)
    (g1, result.1.recommendations)

/-- Shape of the `current` component consumed by the normalization: a dict
whose `condition` entry, when present, is itself a dict. -/
def shapedCurrent (c : Json) : Bool :=
  c.isObj && (c.jGetD "condition" (.obj [])).isObj

/-- Shape of one forecast-day entry consumed by the normalization. -/
def shapedDay (d : Json) : Bool :=
  d.isObj && (d.jGetD "day" (.obj [])).isObj &&
    ((d.jGetD "day" (.obj [])).jGetD "condition" (.obj [])).isObj

/-- A list value all of whose elements satisfy a shape. -/
def shapedList (p : Json → Bool) (j : Json) : Bool :=
  match j with
  | .arr xs => xs.all p
  | _ => false

/-- A provider response is a JSON-like map: a dict each of whose accessed
container components, when present, has the container shape the source
navigates (dicts where it calls `.get`, lists where it iterates).  Leaf
fields may be arbitrarily absent. -/
def wellShaped (data : Json) : Bool :=
  data.isObj &&
  shapedCurrent (data.jGetD "current" (.obj [])) &&
  (data.jGetD "location" (.obj [])).isObj &&
  (data.jGetD "forecast" (.obj [])).isObj &&
  shapedList shapedDay ((data.jGetD "forecast" (.obj [])).jGetD "forecastday" (.arr [])) &&
  (data.jGetD "alerts" (.obj [])).isObj &&
  shapedList Json.isObj ((data.jGetD "alerts" (.obj [])).jGetD "alert" (.arr []))

/-- The error recorded before the Analyze stage would run: the extraction
stage's error if non-empty, otherwise the weather stage's error (empty when
both stages succeed). -/
def pre_analyze_error (llm : LLMClient) (wc : WeatherClient)
    (groqKey weatherKey q : String) : String :=
  let s1 := (extract_location_node llm groqKey (initial_state q)).1
  if s1.error ≠ "" then s1.error
  else (fetch_weather_node wc weatherKey s1).1.error

/-- Mock LLM that extracts "Paris" and fails on the recommendation call. -/
def llmParisThenFail : LLMClient := fun sys _user =>
  if sys = locationSystemPrompt then .ok "Paris" else .exn "boom"

/-- Mock LLM that always answers "unknown". -/
def llmUnknown : LLMClient := fun _sys _user => .ok "unknown"

/-- Mock LLM whose completion call always fails. -/
def llmDown : LLMClient := fun _sys _user => .exn "connection refused"

/-- Mock LLM that extracts "Paris" and returns fixed recommendation text. -/
def llmFull : LLMClient := fun sys _user =>
  if sys = locationSystemPrompt then .ok "Paris" else .ok "Wear a raincoat."

/-- Mock weather provider returning a partial response: only a current
temperature, every other field missing. -/
def wcMinimal : WeatherClient := fun _loc =>
  .ok (.obj [("current", .obj [("temp_c", .num 15)])])

/-- Mock weather provider whose HTTP request always times out. -/
def wcTimeout : WeatherClient := fun _loc => .httpError "timeout"

/-! ## Basic lemmas about the embedded functions -/

lemma append_ne_empty_left (p e : String) (hp : p ≠ "") : p ++ e ≠ "" := by
  intro h
  apply hp
  obtain ⟨l1⟩ := p
  obtain ⟨l2⟩ := e
  have hd : l1 ++ l2 = [] := congrArg String.data h
  rcases List.append_eq_nil.mp hd with ⟨h1, _⟩
  rw [h1]

lemma extract_location_node_keyMissing (llm : LLMClient) (s : AgentState) :
    extract_location_node llm "" s
      = ({ s with error := "Location extraction error: " ++ groqKeyMissingMsg }, []) :=
  rfl

lemma extract_location_node_ok (llm : LLMClient) (groqKey : String)
    (s : AgentState) (t : String) (hg : groqKey ≠ "")
    (h : llm locationSystemPrompt s.user_query = .ok t) :
    extract_location_node llm groqKey s
      = ({ s with
            location := pyStrip t,
            messages := s.messages ++ ["Extracted location: " ++ pyStrip t] },
         [.llm locationSystemPrompt s.user_query]) := by
  unfold extract_location_node
  rw [if_neg hg, h]

lemma extract_location_node_exn (llm : LLMClient) (groqKey : String)
    (s : AgentState) (e : String) (hg : groqKey ≠ "")
    (h : llm locationSystemPrompt s.user_query = .exn e) :
    extract_location_node llm groqKey s
      = ({ s with error := "Location extraction error: " ++ e },
         [.llm locationSystemPrompt s.user_query]) := by
  unfold extract_location_node
  rw [if_neg hg, h]

lemma fetch_weather_node_noLocation (wc : WeatherClient) (wkey : String)
    (s : AgentState) (h : s.location = "unknown" ∨ s.location = "") :
    fetch_weather_node wc wkey s = ({ s with error := noLocationMsg }, []) := by
  unfold fetch_weather_node
  rw [if_pos h]

lemma fetch_weather_node_errorKey (wc : WeatherClient) (wkey : String)
    (s : AgentState) (e : String) (h : ¬(s.location = "unknown" ∨ s.location = ""))
    (he : (fetch_weather_data wc wkey s.location).1 = .obj [("error", .str e)]) :
    fetch_weather_node wc wkey s
      = ({ s with error := e }, (fetch_weather_data wc wkey s.location).2) := by
  unfold fetch_weather_node
  rw [if_neg h, he]
  simp [Json.hasKey, Json.jGet, List.lookup]

lemma fetch_weather_node_stored (wc : WeatherClient) (wkey : String)
    (s : AgentState)
    (h : ¬(s.location = "unknown" ∨ s.location = ""))
    (hk : (fetch_weather_data wc wkey s.location).1.hasKey "error" = false) :
    fetch_weather_node wc wkey s
      = ({ s with
            weather_data := (fetch_weather_data wc wkey s.location).1,
            messages := s.messages ++
              ["Fetched weather data for " ++
                pyFormat ((fetch_weather_data wc wkey s.location).1.jGet "location")] },
         (fetch_weather_data wc wkey s.location).2) := by
  unfold fetch_weather_node
  rw [if_neg h, hk]
  simp

lemma analyze_node_keyMissing (llm : LLMClient) (s : AgentState) :
    analyze_and_recommend_node llm "" s
      = ({ s with error := "Recommendation generation error: " ++ groqKeyMissingMsg }, []) :=
  rfl

lemma analyze_node_noData (llm : LLMClient) (gkey : String) (s : AgentState)
    (hg : gkey ≠ "") (h : pyTruthy s.weather_data = false) :
    analyze_and_recommend_node llm gkey s
      = ({ s with error := "No weather data available" }, []) := by
  unfold analyze_and_recommend_node
  simp [hg, h]

lemma analyze_node_ok (llm : LLMClient) (gkey : String) (s : AgentState)
    (t : String) (hg : gkey ≠ "") (hw : pyTruthy s.weather_data = true)
    (h : llm recSystemPrompt (analyzeUserMessage s.user_query s.weather_data) = .ok t) :
    analyze_and_recommend_node llm gkey s
      = ({ s with
            recommendations := t,
            messages := s.messages ++ ["Generated recommendations"] },
         [.llm recSystemPrompt (analyzeUserMessage s.user_query s.weather_data)]) := by
  unfold analyze_and_recommend_node
  simp [hg, hw, h]

lemma analyze_node_exn (llm : LLMClient) (gkey : String) (s : AgentState)
    (e : String) (hg : gkey ≠ "") (hw : pyTruthy s.weather_data = true)
    (h : llm recSystemPrompt (analyzeUserMessage s.user_query s.weather_data) = .exn e) :
    analyze_and_recommend_node llm gkey s
      = ({ s with error := "Recommendation generation error: " ++ e },
         [.llm recSystemPrompt (analyzeUserMessage s.user_query s.weather_data)]) := by
  unfold analyze_and_recommend_node
  simp [hg, hw, h]

lemma should_continue_error (s : AgentState) (h : s.error ≠ "") :
    should_continue s = "error" := by
  unfold should_continue
  rw [if_pos h]

lemma should_continue_ok (s : AgentState) (h : s.error = "") :
    should_continue s = "fetch_weather" := by
  unfold should_continue
  rw [if_neg (by simp [h])]

lemma after_weather_fetch_error (s : AgentState) (h : s.error ≠ "") :
    after_weather_fetch s = "error" := by
  unfold after_weather_fetch
  rw [if_pos h]

lemma after_weather_fetch_ok (s : AgentState) (h : s.error = "") :
    after_weather_fetch s = "analyze" := by
  unfold after_weather_fetch
  rw [if_neg (by simp [h])]

lemma run_graph_extract_error (llm : LLMClient) (wc : WeatherClient)
    (gk wk : String) (s0 : AgentState)
    (h : (extract_location_node llm gk s0).1.error ≠ "") :
    run_graph llm wc gk wk s0
      = (error_handler_node (extract_location_node llm gk s0).1,
         (extract_location_node llm gk s0).2) := by
  unfold run_graph
  dsimp only
  rw [should_continue_error _ h, if_pos rfl]

lemma run_graph_fetch_error (llm : LLMClient) (wc : WeatherClient)
    (gk wk : String) (s0 : AgentState)
    (h1 : (extract_location_node llm gk s0).1.error = "")
    (h2 : (fetch_weather_node wc wk (extract_location_node llm gk s0).1).1.error ≠ "") :
    run_graph llm wc gk wk s0
      = (error_handler_node (fetch_weather_node wc wk (extract_location_node llm gk s0).1).1,
         (extract_location_node llm gk s0).2
           ++ (fetch_weather_node wc wk (extract_location_node llm gk s0).1).2) := by
  unfold run_graph
  dsimp only
  rw [should_continue_ok _ h1, if_neg (by decide), after_weather_fetch_error _ h2,
    if_pos rfl]

lemma run_graph_success (llm : LLMClient) (wc : WeatherClient)
    (gk wk : String) (s0 : AgentState)
    (h1 : (extract_location_node llm gk s0).1.error = "")
    (h2 : (fetch_weather_node wc wk (extract_location_node llm gk s0).1).1.error = "") :
    run_graph llm wc gk wk s0
      = ((analyze_and_recommend_node llm gk
            (fetch_weather_node wc wk (extract_location_node llm gk s0).1).1).1,
         (extract_location_node llm gk s0).2
           ++ (fetch_weather_node wc wk (extract_location_node llm gk s0).1).2
           ++ (analyze_and_recommend_node llm gk
                (fetch_weather_node wc wk (extract_location_node llm gk s0).1).1).2) := by
  unfold run_graph
  dsimp only
  rw [should_continue_ok _ h1, if_neg (by decide), after_weather_fetch_ok _ h2,
    if_neg (by decide)]

lemma process_query_fst (llm : LLMClient) (wc : WeatherClient) (g : Globals)
    (q gk wk : String) :
    (process_query llm wc g q gk wk).1 = updateGlobals g gk wk := by
  unfold process_query
  dsimp only
  split
  · rfl
  split
  · rfl
  split
  · rfl
  rfl

lemma updateGlobals_empty (g : Globals) : updateGlobals g "" "" = g := rfl

lemma updateGlobals_self (g : Globals) :
    updateGlobals g g.GROQ_API_KEY g.WEATHER_API_KEY = g := by
  unfold updateGlobals
  simp [ite_self]

lemma updateGlobals_idem (g : Globals) (gk wk : String) :
    updateGlobals (updateGlobals g gk wk) gk wk = updateGlobals g gk wk := by
  unfold updateGlobals
  by_cases h1 : gk = "" <;> by_cases h2 : wk = "" <;> simp [h1, h2]

/-! ## Claim theorems -/

/-- C5: both routing predicates are total functions of the request state that
inspect only the `error` field: each returns the label "error" exactly when
`error` is non-empty, its default-successor label ("fetch_weather" after
location extraction, "analyze" after the weather fetch) exactly when `error`
is empty, and no third label is ever returned. -/
theorem routing_predicates_spec (s : AgentState) :
    (should_continue s = "error" ↔ s.error ≠ "") ∧
    (should_continue s = "fetch_weather" ↔ s.error = "") ∧
    (after_weather_fetch s = "error" ↔ s.error ≠ "") ∧
    (after_weather_fetch s = "analyze" ↔ s.error = "") ∧
    (should_continue s = "fetch_weather" ∨ should_continue s = "error") ∧
    (after_weather_fetch s = "analyze" ∨ after_weather_fetch s = "error") := by
  unfold should_continue after_weather_fetch
  by_cases h : s.error = "" <;> simp [h]

/-- C9: when the weather API key is the empty string, `fetch_weather_data`
returns the `WEATHER_API_KEY not set` error record immediately and issues no
HTTP request, for every client behaviour and every location. -/
theorem empty_weather_key_short_circuit (wc : WeatherClient) (location : String) :
    fetch_weather_data wc "" location
      = (.obj [("error", .str "WEATHER_API_KEY not set")], []) :=
  rfl

/-- C10: every `process_query` call overwrites the global credentials with
the provided keys except that an empty provided key keeps the previous
value, and a later call passing empty keys behaves exactly like one passing
the persisted keys. -/
theorem process_query_credential_persistence (llm : LLMClient)
    (wc : WeatherClient) (g : Globals) (q gk wk : String) :
    ((process_query llm wc g q gk wk).1.GROQ_API_KEY
        = if gk = "" then g.GROQ_API_KEY else gk) ∧
    ((process_query llm wc g q gk wk).1.WEATHER_API_KEY
        = if wk = "" then g.WEATHER_API_KEY else wk) ∧
    (∀ q2, process_query llm wc (process_query llm wc g q gk wk).1 q2 "" ""
        = process_query llm wc (process_query llm wc g q gk wk).1 q2
            (process_query llm wc g q gk wk).1.GROQ_API_KEY
            (process_query llm wc g q gk wk).1.WEATHER_API_KEY) := by
  refine ⟨?_, ?_, ?_⟩
  · rw [process_query_fst]
    unfold updateGlobals
    by_cases h : gk = "" <;> simp [h]
  · rw [process_query_fst]
    unfold updateGlobals
    by_cases h : wk = "" <;> simp [h]
  · intro q2
    rw [process_query_fst]
    unfold process_query
    dsimp only
    rw [updateGlobals_empty, updateGlobals_self]

/-- C8: with fixed deterministic clients and fixed inputs, invoking the
pipeline a second time (on the globals left by the first invocation) returns
exactly the same globals and the same final output string as the first
invocation. -/
theorem pipeline_idempotent (llm : LLMClient) (wc : WeatherClient)
    (g : Globals) (q gk wk : String) :
    process_query llm wc (process_query llm wc g q gk wk).1 q gk wk
      = process_query llm wc g q gk wk := by
  rw [process_query_fst]
  unfold process_query
  dsimp only
  rw [updateGlobals_idem]

/-- C3: whenever the resolved location is the sentinel "unknown" or empty,
the weather-retrieval stage records the user-guidance error and issues no
weather call; and a full pipeline run whose extraction produces such a
location terminates through the error stage with only the one extraction
call as external traffic. -/
theorem missing_location_short_circuit (wc : WeatherClient) (wkey : String)
    (s : AgentState) (h : s.location = "unknown" ∨ s.location = "") :
    fetch_weather_node wc wkey s = ({ s with error := noLocationMsg }, []) ∧
    (∀ llm gkey q t, gkey ≠ "" → llm locationSystemPrompt q = LLMResp.ok t →
      (pyStrip t = "unknown" ∨ pyStrip t = "") →
      run_graph llm wc gkey wkey (initial_state q)
        = ({ initial_state q with
              location := pyStrip t,
              messages := ["Extracted location: " ++ pyStrip t],
              error := noLocationMsg,
              recommendations := errorStageText noLocationMsg },
           [Call.llm locationSystemPrompt q])) := by
  constructor
  · exact fetch_weather_node_noLocation wc wkey s h
  · intro llm gkey q t hg hl ht
    have he := extract_location_node_ok llm gkey (initial_state q) t hg hl
    unfold run_graph
    dsimp only
    rw [he]
    dsimp only
    rw [should_continue_ok _ rfl, if_neg (by decide)]
    unfold fetch_weather_node
    dsimp only
    rw [if_pos ht]
    dsimp only
    rw [after_weather_fetch_error _ (by show noLocationMsg ≠ ""; decide), if_pos rfl]
    unfold error_handler_node
    rfl

set_option maxRecDepth 1000000 in
/-- C3 witness: a state whose location is the sentinel "unknown" takes the
validation short-circuit without any weather call. -/
theorem missing_location_short_circuit_witness :
    fetch_weather_node wcMinimal "wk"
        { initial_state "What is the weather like?" with location := "unknown" }
      = ({ initial_state "What is the weather like?" with
            location := "unknown",
            error := noLocationMsg }, []) := by
  have h := missing_location_short_circuit wcMinimal "wk"
    { initial_state "What is the weather like?" with location := "unknown" }
    (Or.inl rfl)
  exact h.1

/-- C7: with a configured key, the recommendation stage on empty weather
data records exactly "No weather data available" and performs no completion
call; and on non-empty weather data a successful completion is stored in
`recommendations` verbatim. -/
theorem recommend_stage_contract (llm : LLMClient) (gkey : String)
    (s : AgentState) (hg : gkey ≠ "") :
    (pyTruthy s.weather_data = false →
      analyze_and_recommend_node llm gkey s
        = ({ s with error := "No weather data available" }, [])) ∧
    (∀ t, pyTruthy s.weather_data = true →
      llm recSystemPrompt (analyzeUserMessage s.user_query s.weather_data)
        = LLMResp.ok t →
      analyze_and_recommend_node llm gkey s
        = ({ s with
              recommendations := t,
              messages := s.messages ++ ["Generated recommendations"] },
           [Call.llm recSystemPrompt (analyzeUserMessage s.user_query s.weather_data)])) :=
  ⟨fun h => analyze_node_noData llm gkey s hg h,
   fun t hw h => analyze_node_ok llm gkey s t hg hw h⟩

set_option maxRecDepth 1000000 in
/-- C7 witness: the initial state has empty weather data, so the stage
records the data-availability error and issues no call. -/
theorem recommend_stage_contract_witness :
    analyze_and_recommend_node llmFull "gk" (initial_state "hello")
      = ({ initial_state "hello" with error := "No weather data available" }, []) := by
  have h := recommend_stage_contract llmFull "gk" (initial_state "hello") (by decide)
  exact h.1 (by decide)

/-- C4: when extraction succeeds with a usable location but the weather
client reports a failure, the failure string of the returned error record is
copied verbatim into the state's `error` field, the final output embeds
exactly that string, and the recommendation stage is never invoked (the
trace holds only the extraction call and the one weather request). -/
theorem weather_failure_propagates_verbatim (llm : LLMClient)
    (wc : WeatherClient) (gkey wkey q t m : String)
    (hg : gkey ≠ "") (hk : wkey ≠ "")
    (hl : llm locationSystemPrompt q = LLMResp.ok t)
    (hloc : ¬(pyStrip t = "unknown" ∨ pyStrip t = ""))
    (hwc : wc (pyStrip t) = WeatherResp.httpError m
      ∨ wc (pyStrip t) = WeatherResp.exn m) :
    ∃ fmsg, fetch_weather_data wc wkey (pyStrip t)
        = (Json.obj [("error", Json.str fmsg)], [Call.weather (pyStrip t)]) ∧
      (run_graph llm wc gkey wkey (initial_state q)).1.error = fmsg ∧
      (run_graph llm wc gkey wkey (initial_state q)).1.recommendations
        = errorStageText fmsg ∧
      (run_graph llm wc gkey wkey (initial_state q)).2
        = [Call.llm locationSystemPrompt q, Call.weather (pyStrip t)] := by
  have he := extract_location_node_ok llm gkey (initial_state q) t hg hl
  have hfd : ∃ fmsg, fmsg ≠ "" ∧ fetch_weather_data wc wkey (pyStrip t)
      = (Json.obj [("error", Json.str fmsg)], [Call.weather (pyStrip t)]) := by
    rcases hwc with hw | hw
    · refine ⟨"Weather API error: " ++ m, append_ne_empty_left _ _ (by decide), ?_⟩
      unfold fetch_weather_data
      rw [if_neg hk, hw]
    · refine ⟨"Unexpected error: " ++ m, append_ne_empty_left _ _ (by decide), ?_⟩
      unfold fetch_weather_data
      rw [if_neg hk, hw]
  obtain ⟨fmsg, hne, hfd⟩ := hfd
  have h1 : (extract_location_node llm gkey (initial_state q)).1.error = "" := by
    rw [he]
    rfl
  have hFe : (fetch_weather_node wc wkey
      (extract_location_node llm gkey (initial_state q)).1).1.error = fmsg := by
    rw [he]
    dsimp only
    unfold fetch_weather_node
    dsimp only
    rw [if_neg hloc, hfd]
    simp [Json.hasKey, Json.jGet, List.lookup]
  have hF2 : (fetch_weather_node wc wkey
      (extract_location_node llm gkey (initial_state q)).1).2
        = [Call.weather (pyStrip t)] := by
    rw [he]
    dsimp only
    unfold fetch_weather_node
    dsimp only
    rw [if_neg hloc, hfd]
    simp [Json.hasKey, Json.jGet, List.lookup]
  have h2 : (fetch_weather_node wc wkey
      (extract_location_node llm gkey (initial_state q)).1).1.error ≠ "" := by
    rw [hFe]
    exact hne
  refine ⟨fmsg, hfd, ?_, ?_, ?_⟩
  · rw [run_graph_fetch_error llm wc gkey wkey (initial_state q) h1 h2]
    unfold error_handler_node
    dsimp only
    exact hFe
  · rw [run_graph_fetch_error llm wc gkey wkey (initial_state q) h1 h2]
    unfold error_handler_node
    dsimp only
    rw [hFe]
  · rw [run_graph_fetch_error llm wc gkey wkey (initial_state q) h1 h2, hF2, he]
    rfl

set_option maxRecDepth 1000000 in
/-- C4 witness: a timing-out weather request propagates its description into
the final error text and stops the pipeline before any recommendation call. -/
theorem weather_failure_propagates_witness :
    ∃ fmsg, fetch_weather_data wcTimeout "wk" (pyStrip "Paris")
        = (Json.obj [("error", Json.str fmsg)], [Call.weather (pyStrip "Paris")]) ∧
      (run_graph llmFull wcTimeout "gk" "wk"
          (initial_state "What should I wear in Paris tomorrow?")).1.error = fmsg ∧
      (run_graph llmFull wcTimeout "gk" "wk"
          (initial_state "What should I wear in Paris tomorrow?")).1.recommendations
        = errorStageText fmsg ∧
      (run_graph llmFull wcTimeout "gk" "wk"
          (initial_state "What should I wear in Paris tomorrow?")).2
        = [Call.llm locationSystemPrompt "What should I wear in Paris tomorrow?",
           Call.weather (pyStrip "Paris")] :=
  weather_failure_propagates_verbatim llmFull wcTimeout "gk" "wk"
    "What should I wear in Paris tomorrow?" "Paris" "timeout"
    (by decide) (by decide) rfl (by decide) (Or.inl rfl)

set_option maxRecDepth 1000000 in
/-- C1 counterexample: a recommendation-stage failure writes a non-empty
`error`, yet the run ends at END without visiting the error stage — the
returned text is the empty `recommendations` field, not the error stage's
formatted output. -/
theorem analyze_error_skips_error_stage :
    (run_graph llmParisThenFail wcMinimal "gk" "wk"
        (initial_state "What should I wear in Paris tomorrow?")).1.error
      = "Recommendation generation error: boom" ∧
    (run_graph llmParisThenFail wcMinimal "gk" "wk"
        (initial_state "What should I wear in Paris tomorrow?")).1.recommendations
      = "" ∧
    (process_query llmParisThenFail wcMinimal ⟨"", ""⟩
        "What should I wear in Paris tomorrow?" "gk" "wk").2 = "" ∧
    errorStageText "Recommendation generation error: boom" ≠ "" :=
  ⟨by decide, by decide, by decide, by decide⟩

/-- C1 (amended): a non-empty error recorded by the extraction stage or the
weather stage routes the run to the error stage, whose formatted output
becomes the final text; an error recorded by the Analyze stage does not
(see the counterexample). -/
theorem pre_analyze_errors_route_to_error_stage (llm : LLMClient)
    (wc : WeatherClient) (gkey wkey q : String)
    (h : pre_analyze_error llm wc gkey wkey q ≠ "") :
    (run_graph llm wc gkey wkey (initial_state q)).1.error
        = pre_analyze_error llm wc gkey wkey q ∧
    (run_graph llm wc gkey wkey (initial_state q)).1.recommendations
        = errorStageText (pre_analyze_error llm wc gkey wkey q) := by
  by_cases h1 : (extract_location_node llm gkey (initial_state q)).1.error = ""
  · have hpre : pre_analyze_error llm wc gkey wkey q
        = (fetch_weather_node wc wkey
            (extract_location_node llm gkey (initial_state q)).1).1.error := by
      unfold pre_analyze_error
      dsimp only
      rw [if_neg (by simp [h1])]
    rw [hpre] at h ⊢
    rw [run_graph_fetch_error llm wc gkey wkey (initial_state q) h1 h]
    unfold error_handler_node
    exact ⟨rfl, rfl⟩
  · have hpre : pre_analyze_error llm wc gkey wkey q
        = (extract_location_node llm gkey (initial_state q)).1.error := by
      unfold pre_analyze_error
      dsimp only
      rw [if_pos h1]
    rw [hpre]
    rw [run_graph_extract_error llm wc gkey wkey (initial_state q) h1]
    unfold error_handler_node
    exact ⟨rfl, rfl⟩

set_option maxRecDepth 1000000 in
/-- C1 (amended) witness: an extraction failure is routed to the error
stage and formatted there. -/
theorem pre_analyze_errors_route_witness :
    (run_graph llmDown wcMinimal "gk" "wk"
        (initial_state "What should I wear?")).1.recommendations
      = errorStageText
          (pre_analyze_error llmDown wcMinimal "gk" "wk" "What should I wear?") :=
  (pre_analyze_errors_route_to_error_stage llmDown wcMinimal "gk" "wk"
    "What should I wear?" (by decide)).2

set_option maxRecDepth 1000000 in
/-- C2 counterexample: on the error path the error stage writes the
formatted message into `recommendations` but never clears `error`, so both
fields are simultaneously non-empty at completion, contradicting the claimed
mutual exclusion. -/
theorem error_path_sets_both_fields :
    (run_graph llmUnknown wcMinimal "gk" "wk"
        (initial_state "What is the weather like?")).1.error ≠ "" ∧
    (run_graph llmUnknown wcMinimal "gk" "wk"
        (initial_state "What is the weather like?")).1.recommendations ≠ "" :=
  ⟨by decide, by decide⟩

lemma outcome_of_handler (llm : LLMClient) (wc : WeatherClient)
    (gkey wkey q : String) (S : AgentState) (T : List Call)
    (hrun : run_graph llm wc gkey wkey (initial_state q) = (error_handler_node S, T))
    (hS : S.error ≠ "") :
    ((run_graph llm wc gkey wkey (initial_state q)).1.error = "" →
      ∃ u, llm recSystemPrompt u
        = LLMResp.ok (run_graph llm wc gkey wkey (initial_state q)).1.recommendations) ∧
    ((run_graph llm wc gkey wkey (initial_state q)).1.error ≠ "" →
      (run_graph llm wc gkey wkey (initial_state q)).1.recommendations
          = errorStageText (run_graph llm wc gkey wkey (initial_state q)).1.error ∨
        (run_graph llm wc gkey wkey (initial_state q)).1.recommendations = "") := by
  constructor
  · intro hemp
    rw [hrun] at hemp
    exact absurd hemp hS
  · intro _
    left
    rw [hrun]
    rfl

lemma outcome_of_analyze (llm : LLMClient) (wc : WeatherClient)
    (gkey wkey q : String) (S2 : AgentState) (T : List Call)
    (hrun : run_graph llm wc gkey wkey (initial_state q)
      = ((analyze_and_recommend_node llm gkey S2).1, T))
    (hSe : S2.error = "") (hrec : S2.recommendations = "") (hgk : gkey ≠ "") :
    ((run_graph llm wc gkey wkey (initial_state q)).1.error = "" →
      ∃ u, llm recSystemPrompt u
        = LLMResp.ok (run_graph llm wc gkey wkey (initial_state q)).1.recommendations) ∧
    ((run_graph llm wc gkey wkey (initial_state q)).1.error ≠ "" →
      (run_graph llm wc gkey wkey (initial_state q)).1.recommendations
          = errorStageText (run_graph llm wc gkey wkey (initial_state q)).1.error ∨
        (run_graph llm wc gkey wkey (initial_state q)).1.recommendations = "") := by
  constructor
  · intro hemp
    by_cases hw : pyTruthy S2.weather_data = true
    · cases hA : llm recSystemPrompt (analyzeUserMessage S2.user_query S2.weather_data) with
      | ok t2 =>
        have ha := analyze_node_ok llm gkey S2 t2 hgk hw hA
        rw [hrun, ha]
        exact ⟨analyzeUserMessage S2.user_query S2.weather_data, hA⟩
      | exn e2 =>
        have ha := analyze_node_exn llm gkey S2 e2 hgk hw hA
        rw [hrun, ha] at hemp
        exact absurd hemp (append_ne_empty_left _ _ (by decide))
    · have hw' : pyTruthy S2.weather_data = false := by
        rcases Bool.eq_false_or_eq_true (pyTruthy S2.weather_data) with hb | hb
        · exact absurd hb hw
        · exact hb
      have ha := analyze_node_noData llm gkey S2 hgk hw'
      rw [hrun, ha] at hemp
      exact absurd (show "No weather data available" = "" from hemp) (by decide)
  · intro hne
    by_cases hw : pyTruthy S2.weather_data = true
    · cases hA : llm recSystemPrompt (analyzeUserMessage S2.user_query S2.weather_data) with
      | ok t2 =>
        have ha := analyze_node_ok llm gkey S2 t2 hgk hw hA
        rw [hrun, ha] at hne
        exact absurd hSe hne
      | exn e2 =>
        have ha := analyze_node_exn llm gkey S2 e2 hgk hw hA
        right
        rw [hrun, ha]
        exact hrec
    · have hw' : pyTruthy S2.weather_data = false := by
        rcases Bool.eq_false_or_eq_true (pyTruthy S2.weather_data) with hb | hb
        · exact absurd hb hw
        · exact hb
      right
      rw [hrun, analyze_node_noData llm gkey S2 hgk hw']
      exact hrec

/-- C2 (amended): at pipeline completion, `error` is empty exactly on the
successful path, where `recommendations` is some completion text the LLM
returned verbatim (empty only when the model returned empty text); when
`error` is non-empty, `recommendations` is either the error stage's
formatted message (failures before the Analyze stage — in which case both
fields are non-empty) or empty (Analyze-stage failures). -/
theorem final_state_outcome_shape (llm : LLMClient) (wc : WeatherClient)
    (gkey wkey q : String) :
    ((run_graph llm wc gkey wkey (initial_state q)).1.error = "" →
      ∃ u, llm recSystemPrompt u
        = LLMResp.ok (run_graph llm wc gkey wkey (initial_state q)).1.recommendations) ∧
    ((run_graph llm wc gkey wkey (initial_state q)).1.error ≠ "" →
      (run_graph llm wc gkey wkey (initial_state q)).1.recommendations
          = errorStageText (run_graph llm wc gkey wkey (initial_state q)).1.error ∨
        (run_graph llm wc gkey wkey (initial_state q)).1.recommendations = "") := by
  by_cases hg : gkey = ""
  · subst hg
    have h1 : (extract_location_node llm "" (initial_state q)).1.error ≠ "" := by
      rw [extract_location_node_keyMissing]
      exact append_ne_empty_left _ _ (by decide)
    exact outcome_of_handler llm wc "" wkey q _ _
      (run_graph_extract_error llm wc "" wkey (initial_state q) h1) h1
  · cases hE : llm locationSystemPrompt q with
    | exn e =>
      have he := extract_location_node_exn llm gkey (initial_state q) e hg hE
      have h1 : (extract_location_node llm gkey (initial_state q)).1.error ≠ "" := by
        rw [he]
        exact append_ne_empty_left _ _ (by decide)
      exact outcome_of_handler llm wc gkey wkey q _ _
        (run_graph_extract_error llm wc gkey wkey (initial_state q) h1) h1
    | ok t =>
      have he := extract_location_node_ok llm gkey (initial_state q) t hg hE
      have h1 : (extract_location_node llm gkey (initial_state q)).1.error = "" := by
        rw [he]
        rfl
      by_cases hloc : pyStrip t = "unknown" ∨ pyStrip t = ""
      · have h2 : (fetch_weather_node wc wkey
            (extract_location_node llm gkey (initial_state q)).1).1.error ≠ "" := by
          rw [he]
          dsimp only
          unfold fetch_weather_node
          dsimp only
          rw [if_pos hloc]
          show noLocationMsg ≠ ""
          decide
        exact outcome_of_handler llm wc gkey wkey q _ _
          (run_graph_fetch_error llm wc gkey wkey (initial_state q) h1 h2) h2
      · by_cases hK : (fetch_weather_data wc wkey (pyStrip t)).1.hasKey "error" = true
        · have hF : fetch_weather_node wc wkey
              (extract_location_node llm gkey (initial_state q)).1
              = ({ (extract_location_node llm gkey (initial_state q)).1 with
                    error :=
                      match (fetch_weather_data wc wkey (pyStrip t)).1.jGet "error" with
                      | Json.str e => e
                      | other => pyFormat other },
                 (fetch_weather_data wc wkey (pyStrip t)).2) := by
            rw [he]
            dsimp only
            unfold fetch_weather_node
            dsimp only
            rw [if_neg hloc, if_pos hK]
          by_cases hE2 : (match (fetch_weather_data wc wkey (pyStrip t)).1.jGet "error" with
              | Json.str e => e
              | other => pyFormat other) = ""
          · have h2 : (fetch_weather_node wc wkey
                (extract_location_node llm gkey (initial_state q)).1).1.error = "" := by
              rw [hF]
              exact hE2
            have hrec : (fetch_weather_node wc wkey
                (extract_location_node llm gkey (initial_state q)).1).1.recommendations
                  = "" := by
              rw [hF]
              dsimp only
              rw [he]
              rfl
            exact outcome_of_analyze llm wc gkey wkey q _ _
              (run_graph_success llm wc gkey wkey (initial_state q) h1 h2) h2 hrec hg
          · have h2 : (fetch_weather_node wc wkey
                (extract_location_node llm gkey (initial_state q)).1).1.error ≠ "" := by
              rw [hF]
              exact hE2
            exact outcome_of_handler llm wc gkey wkey q _ _
              (run_graph_fetch_error llm wc gkey wkey (initial_state q) h1 h2) h2
        · have hKf : (fetch_weather_data wc wkey (pyStrip t)).1.hasKey "error"
              = false := by
            rcases Bool.eq_false_or_eq_true
              ((fetch_weather_data wc wkey (pyStrip t)).1.hasKey "error") with hb | hb
            · exact absurd hb hK
            · exact hb
          have hF : fetch_weather_node wc wkey
              (extract_location_node llm gkey (initial_state q)).1
              = ({ (extract_location_node llm gkey (initial_state q)).1 with
                    weather_data := (fetch_weather_data wc wkey (pyStrip t)).1,
                    messages :=
                      (extract_location_node llm gkey (initial_state q)).1.messages ++
                        ["Fetched weather data for " ++
                          pyFormat ((fetch_weather_data wc wkey (pyStrip t)).1.jGet "location")] },
                 (fetch_weather_data wc wkey (pyStrip t)).2) := by
            rw [he]
            dsimp only
            unfold fetch_weather_node
            dsimp only
            rw [if_neg hloc, hKf, if_neg (by decide)]
          have h2 : (fetch_weather_node wc wkey
              (extract_location_node llm gkey (initial_state q)).1).1.error = "" := by
            rw [hF]
            dsimp only
            rw [he]
            rfl
          have hrec : (fetch_weather_node wc wkey
              (extract_location_node llm gkey (initial_state q)).1).1.recommendations
                = "" := by
            rw [hF]
            dsimp only
            rw [he]
            rfl
          exact outcome_of_analyze llm wc gkey wkey q _ _
            (run_graph_success llm wc gkey wkey (initial_state q) h1 h2) h2 hrec hg

set_option maxRecDepth 1000000 in
/-- C2 (amended) witness: on the missing-location error path the final
recommendations text is the error stage's formatted message. -/
theorem final_state_outcome_shape_witness :
    (run_graph llmUnknown wcMinimal "gk" "wk" (initial_state "hey")).1.recommendations
        = errorStageText
            (run_graph llmUnknown wcMinimal "gk" "wk" (initial_state "hey")).1.error ∨
      (run_graph llmUnknown wcMinimal "gk" "wk" (initial_state "hey")).1.recommendations
        = "" :=
  (final_state_outcome_shape llmUnknown wcMinimal "gk" "wk" "hey").2 (by decide)

lemma bind_ok_ex {α β : Type} (a : α) (f : α → Except String β) :
    (Except.ok a >>= f : Except String β) = f a := rfl

lemma pure_ok {α : Type} (a : α) :
    (pure a : Except String α) = Except.ok a := rfl

lemma isObj_iff (j : Json) : j.isObj = true ↔ ∃ g, j = .obj g := by
  cases j <;> simp [Json.isObj]

lemma shapedList_iff (p : Json → Bool) (j : Json) :
    shapedList p j = true ↔ ∃ xs, j = .arr xs ∧ xs.all p = true := by
  cases j <;> simp [shapedList]

lemma build_forecast_day_ok (d : Json) (hd : shapedDay d = true) :
    build_forecast_day d = .ok (Json.obj
      [("date", d.jGet "date"),
       ("max_temp_c", (d.jGetD "day" (.obj [])).jGet "maxtemp_c"),
       ("min_temp_c", (d.jGetD "day" (.obj [])).jGet "mintemp_c"),
       ("max_temp_f", (d.jGetD "day" (.obj [])).jGet "maxtemp_f"),
       ("min_temp_f", (d.jGetD "day" (.obj [])).jGet "mintemp_f"),
       ("condition", ((d.jGetD "day" (.obj [])).jGetD "condition" (.obj [])).jGet "text"),
       ("rain_chance", (d.jGetD "day" (.obj [])).jGet "daily_chance_of_rain"),
       ("snow_chance", (d.jGetD "day" (.obj [])).jGet "daily_chance_of_snow"),
       ("max_wind_kph", (d.jGetD "day" (.obj [])).jGet "maxwind_kph"),
       ("avg_humidity", (d.jGetD "day" (.obj [])).jGet "avghumidity"),
       ("uv", (d.jGetD "day" (.obj [])).jGet "uv")]) := by
  cases d with
  | obj dfs =>
    simp only [shapedDay, Bool.and_eq_true] at hd
    obtain ⟨⟨_, hdd⟩, hcond⟩ := hd
    simp only [Json.jGetD] at hdd hcond
    obtain ⟨ddf, hddf⟩ := (isObj_iff _).mp hdd
    rw [hddf] at hcond
    simp only [Json.jGetD] at hcond
    obtain ⟨cdf, hcdf⟩ := (isObj_iff _).mp hcond
    simp only [build_forecast_day, pyGet, pyGetD, hddf, hcdf, bind_ok_ex, pure_ok,
      Json.jGet, Json.jGetD]
  | null => simp [shapedDay, Json.isObj] at hd
  | bool b => simp [shapedDay, Json.isObj] at hd
  | num n => simp [shapedDay, Json.isObj] at hd
  | str s => simp [shapedDay, Json.isObj] at hd
  | arr xs => simp [shapedDay, Json.isObj] at hd

lemma build_forecast_ok (ds : List Json) (h : ds.all shapedDay = true) :
    ∃ out, build_forecast ds = .ok out ∧ out.length = ds.length ∧
      ∀ i, i < ds.length →
        (out.getD i .null).jGet "date" = (ds.getD i .null).jGet "date" ∧
        (out.getD i .null).jGet "max_temp_c"
          = ((ds.getD i .null).jGetD "day" (.obj [])).jGet "maxtemp_c" := by
  induction ds with
  | nil => exact ⟨[], rfl, rfl, fun i hi => absurd hi (by simp)⟩
  | cons d rest ih =>
    simp only [List.all_cons, Bool.and_eq_true] at h
    obtain ⟨hd, hrest⟩ := h
    obtain ⟨out, hout, hlen, hidx⟩ := ih hrest
    refine ⟨Json.obj
      [("date", d.jGet "date"),
       ("max_temp_c", (d.jGetD "day" (.obj [])).jGet "maxtemp_c"),
       ("min_temp_c", (d.jGetD "day" (.obj [])).jGet "mintemp_c"),
       ("max_temp_f", (d.jGetD "day" (.obj [])).jGet "maxtemp_f"),
       ("min_temp_f", (d.jGetD "day" (.obj [])).jGet "mintemp_f"),
       ("condition", ((d.jGetD "day" (.obj [])).jGetD "condition" (.obj [])).jGet "text"),
       ("rain_chance", (d.jGetD "day" (.obj [])).jGet "daily_chance_of_rain"),
       ("snow_chance", (d.jGetD "day" (.obj [])).jGet "daily_chance_of_snow"),
       ("max_wind_kph", (d.jGetD "day" (.obj [])).jGet "maxwind_kph"),
       ("avg_humidity", (d.jGetD "day" (.obj [])).jGet "avghumidity"),
       ("uv", (d.jGetD "day" (.obj [])).jGet "uv")] :: out, ?_, ?_, ?_⟩
    · simp only [build_forecast, build_forecast_day_ok d hd, bind_ok_ex, hout, pure_ok]
    · simp [hlen]
    · intro i hi
      cases i with
      | zero => exact ⟨rfl, rfl⟩
      | succ n =>
        simp only [List.getD_cons_succ]
        exact hidx n (Nat.lt_of_succ_lt_succ hi)

lemma build_alert_ok (a : Json) (ha : a.isObj = true) :
    build_alert a = .ok (Json.obj
      [("headline", a.jGet "headline"),
       ("severity", a.jGet "severity"),
       ("event", a.jGet "event")]) := by
  obtain ⟨g, hg⟩ := (isObj_iff _).mp ha
  subst hg
  simp only [build_alert, pyGet, pyGetD, bind_ok_ex, pure_ok, Json.jGet]

lemma build_alerts_ok (als : List Json) (h : als.all Json.isObj = true) :
    ∃ arecs, build_alerts als = .ok arecs := by
  induction als with
  | nil => exact ⟨[], rfl⟩
  | cons a rest ih =>
    simp only [List.all_cons, Bool.and_eq_true] at h
    obtain ⟨ha, hrest⟩ := h
    obtain ⟨arecs, harecs⟩ := ih hrest
    exact ⟨Json.obj
      [("headline", a.jGet "headline"),
       ("severity", a.jGet "severity"),
       ("event", a.jGet "event")] :: arecs,
      by simp only [build_alerts, build_alert_ok a ha, bind_ok_ex, harecs, pure_ok]⟩

/-- C6: on every JSON-like (possibly partial) provider response, the
normalization of `fetch_weather_data` succeeds — missing keys never raise —
with every produced leaf equal to the provider's value where present and
`null` where absent: shown here for the current-conditions fields, the local
time, and the per-day forecast fields. -/
theorem weather_normalization_defensive (data : Json)
    (h : wellShaped data = true) :
    ∃ s, normalizeWeather data = Except.ok s ∧
      (s.jGet "current").jGet "temp_c"
          = (data.jGetD "current" (.obj [])).jGet "temp_c" ∧
      (s.jGet "current").jGet "temp_f"
          = (data.jGetD "current" (.obj [])).jGet "temp_f" ∧
      (s.jGet "current").jGet "humidity"
          = (data.jGetD "current" (.obj [])).jGet "humidity" ∧
      (s.jGet "current").jGet "uv"
          = (data.jGetD "current" (.obj [])).jGet "uv" ∧
      (s.jGet "current").jGet "condition"
          = ((data.jGetD "current" (.obj [])).jGetD "condition" (.obj [])).jGet "text" ∧
      s.jGet "local_time" = (data.jGetD "location" (.obj [])).jGet "localtime" ∧
      ∃ ds out,
        (data.jGetD "forecast" (.obj [])).jGetD "forecastday" (.arr []) = .arr ds ∧
        s.jGet "forecast" = .arr out ∧
        out.length = ds.length ∧
        ∀ i, i < ds.length →
          (out.getD i .null).jGet "date" = (ds.getD i .null).jGet "date" ∧
          (out.getD i .null).jGet "max_temp_c"
            = ((ds.getD i .null).jGetD "day" (.obj [])).jGet "maxtemp_c" := by
  cases data with
  | obj fs =>
    simp only [wellShaped, Bool.and_eq_true] at h
    obtain ⟨⟨⟨⟨⟨⟨_, hcur⟩, hloc⟩, hfor⟩, hfdays⟩, halrt⟩, halist⟩ := h
    simp only [shapedCurrent, Json.jGetD, Bool.and_eq_true] at hcur
    obtain ⟨hcobj, hccond⟩ := hcur
    obtain ⟨cfs, hcfs⟩ := (isObj_iff _).mp hcobj
    rw [hcfs] at hccond
    simp only [Json.jGetD] at hccond
    obtain ⟨ccfs, hccfs⟩ := (isObj_iff _).mp hccond
    simp only [Json.jGetD] at hloc hfor hfdays halrt halist
    obtain ⟨lfs, hlfs⟩ := (isObj_iff _).mp hloc
    obtain ⟨ffs, hffs⟩ := (isObj_iff _).mp hfor
    rw [hffs] at hfdays
    simp only [Json.jGetD] at hfdays
    obtain ⟨ds, hds, hdsall⟩ := (shapedList_iff _ _).mp hfdays
    obtain ⟨afs, hafs⟩ := (isObj_iff _).mp halrt
    rw [hafs] at halist
    simp only [Json.jGetD] at halist
    obtain ⟨als, hals, halsall⟩ := (shapedList_iff _ _).mp halist
    obtain ⟨out, hout, hlen, hidx⟩ := build_forecast_ok ds hdsall
    have hC : Json.jGetD (Json.obj fs) "current" (Json.obj []) = Json.obj cfs := by
      simp only [Json.jGetD]
      exact hcfs
    have hL : Json.jGetD (Json.obj fs) "location" (Json.obj []) = Json.obj lfs := by
      simp only [Json.jGetD]
      exact hlfs
    have hFo : Json.jGetD (Json.obj fs) "forecast" (Json.obj []) = Json.obj ffs := by
      simp only [Json.jGetD]
      exact hffs
    cases als with
    | nil =>
      refine ⟨Json.obj
        [("location", .str (pyFormat ((lfs.lookup "name").getD .null) ++ ", "
            ++ pyFormat ((lfs.lookup "country").getD .null))),
         ("local_time", (lfs.lookup "localtime").getD .null),
         ("current", .obj
           [("temp_c", (cfs.lookup "temp_c").getD .null),
            ("temp_f", (cfs.lookup "temp_f").getD .null),
            ("condition", (ccfs.lookup "text").getD .null),
            ("wind_kph", (cfs.lookup "wind_kph").getD .null),
            ("wind_mph", (cfs.lookup "wind_mph").getD .null),
            ("humidity", (cfs.lookup "humidity").getD .null),
            ("feelslike_c", (cfs.lookup "feelslike_c").getD .null),
            ("feelslike_f", (cfs.lookup "feelslike_f").getD .null),
            ("uv", (cfs.lookup "uv").getD .null),
            ("visibility_km", (cfs.lookup "vis_km").getD .null)]),
         ("forecast", .arr out)], ?_, ?_, ?_, ?_, ?_, ?_, ?_,
        ⟨ds, out, ?_, rfl, hlen, hidx⟩⟩
      · simp only [normalizeWeather, pyGetD, pyGet, bind_ok_ex, pure_ok,
          hcfs, hccfs, hlfs, hffs, hds, hafs, hals, pyIter, hout]
        simp [pyTruthy]
      · rw [hC]
        rfl
      · rw [hC]
        rfl
      · rw [hC]
        rfl
      · rw [hC]
        rfl
      · rw [hC]
        simp only [Json.jGetD]
        rw [hccfs]
        rfl
      · rw [hL]
        rfl
      · rw [hFo]
        simp only [Json.jGetD]
        exact hds
    | cons a arest =>
      obtain ⟨arecs, harecs⟩ := build_alerts_ok (a :: arest) halsall
      refine ⟨Json.obj
        ([("location", .str (pyFormat ((lfs.lookup "name").getD .null) ++ ", "
            ++ pyFormat ((lfs.lookup "country").getD .null))),
          ("local_time", (lfs.lookup "localtime").getD .null),
          ("current", .obj
            [("temp_c", (cfs.lookup "temp_c").getD .null),
             ("temp_f", (cfs.lookup "temp_f").getD .null),
             ("condition", (ccfs.lookup "text").getD .null),
             ("wind_kph", (cfs.lookup "wind_kph").getD .null),
             ("wind_mph", (cfs.lookup "wind_mph").getD .null),
             ("humidity", (cfs.lookup "humidity").getD .null),
             ("feelslike_c", (cfs.lookup "feelslike_c").getD .null),
             ("feelslike_f", (cfs.lookup "feelslike_f").getD .null),
             ("uv", (cfs.lookup "uv").getD .null),
             ("visibility_km", (cfs.lookup "vis_km").getD .null)]),
          ("forecast", .arr out)]
         ++ [("alerts", .arr arecs)]), ?_, ?_, ?_, ?_, ?_, ?_, ?_,
        ⟨ds, out, ?_, ?_, hlen, hidx⟩⟩
      · simp only [normalizeWeather, pyGetD, pyGet, bind_ok_ex, pure_ok,
          hcfs, hccfs, hlfs, hffs, hds, hafs, hals, pyIter, hout, harecs]
        simp [pyTruthy]
      · rw [hC]
        rfl
      · rw [hC]
        rfl
      · rw [hC]
        rfl
      · rw [hC]
        rfl
      · rw [hC]
        simp only [Json.jGetD]
        rw [hccfs]
        rfl
      · rw [hL]
        rfl
      · rw [hFo]
        simp only [Json.jGetD]
        exact hds
      · rfl
  | null => simp [wellShaped, Json.isObj] at h
  | bool b => simp [wellShaped, Json.isObj] at h
  | num n => simp [wellShaped, Json.isObj] at h
  | str s => simp [wellShaped, Json.isObj] at h
  | arr xs => simp [wellShaped, Json.isObj] at h

set_option maxRecDepth 1000000 in
/-- C6 witness: a partial provider response carrying only a current
temperature normalizes successfully, with the present numeric field passed
through and every missing field defaulted rather than raising. -/
theorem weather_normalization_defensive_witness :
    ∃ s, normalizeWeather (Json.obj [("current", Json.obj [("temp_c", Json.num 15)])])
        = Except.ok s ∧
      (s.jGet "current").jGet "temp_c"
          = ((Json.obj [("current", Json.obj [("temp_c", Json.num 15)])]).jGetD
              "current" (.obj [])).jGet "temp_c" ∧
      (s.jGet "current").jGet "temp_f"
          = ((Json.obj [("current", Json.obj [("temp_c", Json.num 15)])]).jGetD
              "current" (.obj [])).jGet "temp_f" ∧
      (s.jGet "current").jGet "humidity"
          = ((Json.obj [("current", Json.obj [("temp_c", Json.num 15)])]).jGetD
              "current" (.obj [])).jGet "humidity" ∧
      (s.jGet "current").jGet "uv"
          = ((Json.obj [("current", Json.obj [("temp_c", Json.num 15)])]).jGetD
              "current" (.obj [])).jGet "uv" ∧
      (s.jGet "current").jGet "condition"
          = (((Json.obj [("current", Json.obj [("temp_c", Json.num 15)])]).jGetD
              "current" (.obj [])).jGetD "condition" (.obj [])).jGet "text" ∧
      s.jGet "local_time"
          = ((Json.obj [("current", Json.obj [("temp_c", Json.num 15)])]).jGetD
              "location" (.obj [])).jGet "localtime" ∧
      ∃ ds out,
        ((Json.obj [("current", Json.obj [("temp_c", Json.num 15)])]).jGetD
            "forecast" (.obj [])).jGetD "forecastday" (.arr []) = .arr ds ∧
        s.jGet "forecast" = .arr out ∧
        out.length = ds.length ∧
        ∀ i, i < ds.length →
          (out.getD i .null).jGet "date" = (ds.getD i .null).jGet "date" ∧
          (out.getD i .null).jGet "max_temp_c"
            = ((ds.getD i .null).jGetD "day" (.obj [])).jGet "maxtemp_c" :=
  weather_normalization_defensive
    (Json.obj [("current", Json.obj [("temp_c", Json.num 15)])]) (by decide)

end WeatherAgent
